import Mathlib

/-!
Shallow embedding of the SQL column-type subsystem of this repository
(`pkg/sql/parser/col_types.go`), the result-column compatibility check
(`pkg/sql/sqlbase`), and the `sqlfmt` CLI wrapper (`pkg/cmd/sqlfmt/main.go`),
together with theorems settling the specification claims about them.

Conventions of the embedding:
* Go `int` values are modelled as `Int`; the `int32` bounds that
  `LimitDecimalWidth` checks explicitly appear as `minInt32`/`maxInt32`.
* Functions that can `panic` return `Option`; functions returning
  `(T, error)` return `Except PgError T`.
* `fmt.Fprintf`-style formatting into a `bytes.Buffer` is modelled by
  `String` concatenation; `FmtFlags` only influence identifier escaping
  (see `encodeUnrestrictedSQLIdent`) and are dropped.
-/

/-- Error codes of the `pgerror` package actually used by the embedded code
(`pgerror.CodeInvalidParameterValueError`, `CodeNumericValueOutOfRangeError`,
`CodeFeatureNotSupportedError`, `CodeInvalidTableDefinitionError`). -/
inductive PgCode
  | invalidParameterValue
  | numericValueOutOfRange
  | featureNotSupported
  | invalidTableDefinition
  deriving DecidableEq, Repr

/-- A `pgerror.Error` as constructed by `pgerror.NewError` /
`pgerror.NewErrorf`: an error code plus a formatted message. -/
structure PgError where
  code : PgCode
  message : String
  deriving DecidableEq, Repr

/-- The runtime value types of `pkg/sql/sem/types` (`types.T`), restricted to
the variants reachable from the embedded code: the primitive tags, the six
OID tags, collated strings, arrays, and the oid-wrapper. `types.TNull` is the
wildcard "unknown" type. The `oid.Oid` payload of `TOidWrapper` is not
observed by any embedded function and is omitted. -/
inductive TypesT
  | TypeNull
  | TypeBool
  | TypeInt
  | TypeFloat
  | TypeDecimal
  | TypeString
  | TypeBytes
  | TypeDate
  | TypeTimestamp
  | TypeTimestampTZ
  | TypeInterval
  | TypeJSON
  | TypeUUID
  | TypeINet
  | TypeName
  | TypeOid
  | TypeRegClass
  | TypeRegNamespace
  | TypeRegProc
  | TypeRegProcedure
  | TypeRegType
  | TCollatedString (locale : String)
  | TArray (typ : TypesT)
  | TOidWrapper (typ : TypesT)
  deriving DecidableEq, Repr

/-- Constant `types.TypeIntVector`: in the source this is the `TOidWrapper` around
`TArray{TypeInt}` carrying the `int2vector` oid (payload omitted here). -/
def TypeIntVector : TypesT := .TOidWrapper (.TArray .TypeInt)

/-- A Go `*OidColType` pointer value.  `oidColTypeToType` in the source
switches on the pointer itself (`switch ct { case oidColTypeOid: ... }`),
i.e. on pointer identity against the six package-level singletons.  The six
singleton constructors are those cached pointers; `fresh name` is any other
allocation of an `OidColType` (e.g. `&OidColType{Name: "OID"}`), which is
never pointer-identical to a cached singleton even when its `Name` field
coincides. -/
inductive OidColTypePtr
  | oidColTypeOid
  | oidColTypeRegClass
  | oidColTypeRegNamespace
  | oidColTypeRegProc
  | oidColTypeRegProcedure
  | oidColTypeRegType
  | fresh (name : String)
  deriving DecidableEq, Repr

/-- The `Name` field of an `OidColType` value: `"OID"` for the singleton
`oidColTypeOid`, etc.; a fresh allocation carries whatever name it was
constructed with. -/
def OidColTypePtr.name : OidColTypePtr → String
  | .oidColTypeOid => "OID"
  | .oidColTypeRegClass => "REGCLASS"
  | .oidColTypeRegNamespace => "REGNAMESPACE"
  | .oidColTypeRegProc => "REGPROC"
  | .oidColTypeRegProcedure => "REGPROCEDURE"
  | .oidColTypeRegType => "REGTYPE"
  | .fresh s => s

/-- Array bounds expressions (`parser.Exprs`).  The embedded code never
inspects them — `arrayOf` only stores them in the new `ArrayColType` — so
they are modelled as an opaque list. -/
abbrev Exprs := List Unit

/-- The closed set of `ColumnType` variants of `col_types.go`, each
constructor carrying exactly the fields of the corresponding Go struct
(`BoolColType{Name}`, `IntColType{Name, Width, ImplicitWidth}`, ...).
`OidColType` carries the pointer-identity information needed by
`oidColTypeToType` (see `OidColTypePtr`). -/
inductive ColumnType
  | BoolColType (name : String)
  | IntColType (name : String) (width : Int) (implicitWidth : Bool)
  | FloatColType (name : String) (prec : Int) (width : Int) (precSpecified : Bool)
  | DecimalColType (name : String) (prec : Int) (scale : Int)
  | DateColType
  | TimestampColType
  | TimestampTZColType
  | IntervalColType
  | JSONColType (name : String)
  | UUIDColType
  | IPAddrColType (name : String)
  | StringColType (name : String) (n : Int)
  | NameColType
  | BytesColType (name : String)
  | CollatedStringColType (name : String) (n : Int) (locale : String)
  | ArrayColType (name : String) (paramType : ColumnType) (boundsExprs : Exprs)
  | VectorColType (name : String) (paramType : ColumnType)
  | OidColType (ptr : OidColTypePtr)
  deriving DecidableEq, Repr

-- Pre-allocated immutable column types of col_types.go (the package-level
-- singleton variables referenced by the resolver functions).
def boolColTypeBool : ColumnType := .BoolColType "BOOL"
def intColTypeInt : ColumnType := .IntColType "INT" 0 false
def floatColTypeFloat : ColumnType := .FloatColType "FLOAT" 0 64 false
def decimalColTypeDecimal : ColumnType := .DecimalColType "DECIMAL" 0 0
def dateColTypeDate : ColumnType := .DateColType
def timestampColTypeTimestamp : ColumnType := .TimestampColType
def timestampTzColTypeTimestampWithTZ : ColumnType := .TimestampTZColType
def intervalColTypeInterval : ColumnType := .IntervalColType
def jsonColType : ColumnType := .JSONColType "JSON"
def uuidColTypeUUID : ColumnType := .UUIDColType
def ipnetColTypeINet : ColumnType := .IPAddrColType "INET"
def stringColTypeString : ColumnType := .StringColType "STRING" 0
def nameColTypeName : ColumnType := .NameColType
def bytesColTypeBytes : ColumnType := .BytesColType "BYTES"

/-- Function `NewFloatColType`: returns the cached default `FLOAT` when no precision
was given, otherwise allocates a fresh `FloatColType` with `Width: 64`. -/
def NewFloatColType (prec : Int) (precSpecified : Bool) : ColumnType :=
  if prec = 0 ∧ precSpecified = false then floatColTypeFloat
  else .FloatColType "FLOAT" prec 64 precSpecified

/-- The `precSpecified` field of a `FloatColType` (false on every other
variant). -/
def ColumnType.precSpecified : ColumnType → Bool
  | .FloatColType _ _ _ ps => ps
  | _ => false

/-- Modelled from the spec: `encodeUnrestrictedSQLIdent` is not among the
supplied source files; per the spec, formatting flags "influence only
identifier-escaping conventions (e.g. quoting rules for locale names), never
the type's own structural rendering".  With the default flags used by
`AsString` the locale is rendered as the identifier itself; no claim observes
locale rendering. -/
def encodeUnrestrictedSQLIdent (s : String) : String := s

/-- The `Format` method of each `ColumnType` variant, as a pure function to
the emitted text fragment.  `String()` on a `ColumnType` is `AsString(node)`,
which renders through `Format` with default flags, so it coincides with this
function. -/
def ColumnType.Format : ColumnType → String
  | .BoolColType name => name
  | .IntColType name width implicitWidth =>
      name ++ (if width > 0 ∧ implicitWidth = false
               then "(" ++ toString width ++ ")" else "")
  | .FloatColType name prec _ _ =>
      name ++ (if prec > 0 then "(" ++ toString prec ++ ")" else "")
  | .DecimalColType name prec scale =>
      name ++ (if prec > 0
               then "(" ++ toString prec ++
                    (if scale > 0 then "," ++ toString scale else "") ++ ")"
               else "")
  | .DateColType => "DATE"
  | .TimestampColType => "TIMESTAMP"
  | .TimestampTZColType => "TIMESTAMP WITH TIME ZONE"
  | .IntervalColType => "INTERVAL"
  | .JSONColType name => name
  | .UUIDColType => "UUID"
  | .IPAddrColType name => name
  | .StringColType name n =>
      name ++ (if n > 0 then "(" ++ toString n ++ ")" else "")
  | .NameColType => "NAME"
  | .BytesColType name => name
  | .CollatedStringColType name n locale =>
      name ++ (if n > 0 then "(" ++ toString n ++ ")" else "")
        ++ " COLLATE " ++ encodeUnrestrictedSQLIdent locale
  | .ArrayColType name paramType _ =>
      name ++ (match paramType with
               | .CollatedStringColType _ _ locale =>
                   " COLLATE " ++ encodeUnrestrictedSQLIdent locale
               | _ => "")
  | .VectorColType name _ => name
  | .OidColType ptr => ptr.name

/-- Modelled from the spec: `canBeInArrayColType` is not among the supplied
source files; per the spec, array-eligibility "excludes `Array` and `Vector`
themselves (no nested arrays, no arrays of legacy vectors)" and "the check is
a pure predicate over the element variant, not over its parameters". -/
def canBeInArrayColType : ColumnType → Bool
  | .ArrayColType _ _ _ => false
  | .VectorColType _ _ => false
  | _ => true

/-- Function `arrayOf`: rejects ineligible element types with a
`CodeFeatureNotSupportedError`, otherwise builds an `ArrayColType` whose
`Name` is the element's `String()` form with `"[]"` appended and which owns
the element type and the bounds expressions. -/
def arrayOf (colType : ColumnType) (boundsExprs : Exprs) : Except PgError ColumnType :=
  if canBeInArrayColType colType = false then
    .error { code := .featureNotSupported,
             message := "arrays of " ++ colType.Format ++ " not allowed" }
  else
    .ok (.ArrayColType (colType.Format ++ "[]") colType boundsExprs)

/-- Function `oidColTypeToType`: a Go `switch` on the *pointer* `ct` against the six
cached singleton pointers; any other pointer — including a freshly allocated
`OidColType` with one of the six names — falls through to the `default`
branch, which panics (modelled as `none`). -/
def oidColTypeToType : OidColTypePtr → Option TypesT
  | .oidColTypeOid => some .TypeOid
  | .oidColTypeRegClass => some .TypeRegClass
  | .oidColTypeRegNamespace => some .TypeRegNamespace
  | .oidColTypeRegProc => some .TypeRegProc
  | .oidColTypeRegProcedure => some .TypeRegProcedure
  | .oidColTypeRegType => some .TypeRegType
  | .fresh _ => none

/-- Function `oidTypeToColType`: maps each of the six OID value-type tags to the
corresponding cached singleton pointer; any other type panics (`none`). -/
def oidTypeToColType : TypesT → Option OidColTypePtr
  | .TypeOid => some .oidColTypeOid
  | .TypeRegClass => some .oidColTypeRegClass
  | .TypeRegNamespace => some .oidColTypeRegNamespace
  | .TypeRegProc => some .oidColTypeRegProc
  | .TypeRegProcedure => some .oidColTypeRegProcedure
  | .TypeRegType => some .oidColTypeRegType
  | _ => none

/-- Function `DatumTypeToColumnType`: maps a runtime value type to its canonical
column type.  The six OID tags go through `oidTypeToColType` (written out
case by case here, exactly its six successful cases); collated strings and
arrays recurse structurally; `TOidWrapper` unwraps; any remaining type — in
this universe only `TypeNull`, whose `String()` is `"NULL"` — fails with
`CodeInvalidTableDefinitionError`. -/
def DatumTypeToColumnType : TypesT → Except PgError ColumnType
  | .TypeBool => .ok boolColTypeBool
  | .TypeInt => .ok intColTypeInt
  | .TypeFloat => .ok floatColTypeFloat
  | .TypeDecimal => .ok decimalColTypeDecimal
  | .TypeTimestamp => .ok timestampColTypeTimestamp
  | .TypeTimestampTZ => .ok timestampTzColTypeTimestampWithTZ
  | .TypeInterval => .ok intervalColTypeInterval
  | .TypeJSON => .ok jsonColType
  | .TypeUUID => .ok uuidColTypeUUID
  | .TypeINet => .ok ipnetColTypeINet
  | .TypeDate => .ok dateColTypeDate
  | .TypeString => .ok stringColTypeString
  | .TypeName => .ok nameColTypeName
  | .TypeBytes => .ok bytesColTypeBytes
  | .TypeOid => .ok (.OidColType .oidColTypeOid)
  | .TypeRegClass => .ok (.OidColType .oidColTypeRegClass)
  | .TypeRegNamespace => .ok (.OidColType .oidColTypeRegNamespace)
  | .TypeRegProc => .ok (.OidColType .oidColTypeRegProc)
  | .TypeRegProcedure => .ok (.OidColType .oidColTypeRegProcedure)
  | .TypeRegType => .ok (.OidColType .oidColTypeRegType)
  | .TCollatedString locale => .ok (.CollatedStringColType "STRING" 0 locale)
  | .TArray typ => do
      let elemTyp ← DatumTypeToColumnType typ
      arrayOf elemTyp []
  | .TOidWrapper typ => DatumTypeToColumnType typ
  | .TypeNull => .error
      { code := .invalidTableDefinition,
        message := "value type NULL cannot be used for table columns" }

/-- Function `CastTargetToDatumType`: the reverse mapping, an exhaustive type switch.
The only reachable `panic` is inside `oidColTypeToType` (modelled as `none`);
`VectorColType` collapses to `types.TypeIntVector` and arrays recurse. -/
def CastTargetToDatumType : ColumnType → Option TypesT
  | .BoolColType _ => some .TypeBool
  | .IntColType _ _ _ => some .TypeInt
  | .FloatColType _ _ _ _ => some .TypeFloat
  | .DecimalColType _ _ _ => some .TypeDecimal
  | .StringColType _ _ => some .TypeString
  | .NameColType => some .TypeName
  | .BytesColType _ => some .TypeBytes
  | .DateColType => some .TypeDate
  | .TimestampColType => some .TypeTimestamp
  | .TimestampTZColType => some .TypeTimestampTZ
  | .IntervalColType => some .TypeInterval
  | .JSONColType _ => some .TypeJSON
  | .UUIDColType => some .TypeUUID
  | .IPAddrColType _ => some .TypeINet
  | .CollatedStringColType _ _ locale => some (.TCollatedString locale)
  | .ArrayColType _ paramType _ => (CastTargetToDatumType paramType).map .TArray
  | .VectorColType _ _ => some TypeIntVector
  | .OidColType ptr => oidColTypeToType ptr

/-- One round trip of claim C2: `DatumTypeToColumnType` succeeds on `v` and
`CastTargetToDatumType` maps the resulting column type back to exactly `v`. -/
def roundTripsTo (v : TypesT) : Bool :=
  match DatumTypeToColumnType v with
  | .ok c => decide (CastTargetToDatumType c = some v)
  | .error _ => false

/-! ## Decimal width limiter (`LimitDecimalWidth`) -/

/-- The `Form` of an `apd.Decimal` (external `cockroachdb/apd` library). -/
inductive ApdForm
  | finite
  | infinite
  | naN
  | naNSignaling
  deriving DecidableEq, Repr

/-- An `apd.Decimal`: a form tag, a sign, an arbitrary-precision unsigned
coefficient and a decimal exponent; a finite value denotes
`(-1)^negative * coeff * 10^exponent`. -/
structure ApdDecimal where
  form : ApdForm
  negative : Bool
  coeff : Nat
  exponent : Int
  deriving DecidableEq, Repr

/-- Constant `math.MinInt32`, written as a numeral. -/
def minInt32 : Int := -2147483648

/-- Constant `math.MaxInt32`, written as a numeral. -/
def maxInt32 : Int := 2147483647

/-- Number of decimal digits of `n` (`apd`'s `NumDigits` of a coefficient;
`1` for zero), computed on `n`'s decimal-digit string. -/
def numDigits (n : Nat) : Nat := (Nat.toDigits 10 n).length

/-- Modelled from the external `cockroachdb/apd` library: the coefficient of
`Context.Quantize(d, d, -scale)` on a finite `d`, i.e. the magnitude of `d`
rescaled to exponent `-scale`.  When the exponent must decrease the digits
are padded exactly; when it must increase, the dropped digits are rounded
with the context's rounding (`RoundHalfUp`: ties round away from zero, here
applied to the unsigned coefficient). -/
def quantizedCoeff (d : ApdDecimal) (scale : Int) : Nat :=
  let shift : Int := d.exponent + scale
  if 0 ≤ shift then d.coeff * 10 ^ shift.toNat
  else
    (d.coeff + 10 ^ (-shift).toNat / 2) / 10 ^ (-shift).toNat

/-- Constant `errScaleOutOfRange` of `col_types.go`:
`pgerror.NewError(pgerror.CodeNumericValueOutOfRangeError, "scale out of range")`.
Note its code is `CodeNumericValueOutOfRangeError`. -/
def errScaleOutOfRange : PgError :=
  { code := .numericValueOutOfRange, message := "scale out of range" }

/-- Constant `errBitLengthNotPositive` of `col_types.go`. -/
def errBitLengthNotPositive : PgError :=
  { code := .invalidParameterValue,
    message := "length for type bit must be at least 1" }

/-- Function `newIntBitType`. -/
def newIntBitType (width : Int) : Except PgError ColumnType :=
  if width < 1 then .error errBitLengthNotPositive
  else .ok (.IntColType "BIT" width false)

/-- Function `LimitDecimalWidth(d, precision, scale)`, returning the final state of
the in-place-updated decimal together with the optional error:
1. no-op unless `d` is finite and `precision > 0`;
2. `errScaleOutOfRange` when `scale` is outside `[MinInt32+1, MaxInt32]`
   (the bound is `+1`-adjusted because the code later negates `int32(scale)`);
3. `CodeInvalidParameterValueError` when `scale > precision`;
4. otherwise quantizes to exponent `-scale` in a context with `precision`
   digits and the `InvalidOperation` trap set: the trap fires exactly when
   the quantized coefficient has more than `precision` digits (modelled from
   `apd.Context.Quantize`; under the guards above, `-scale` is always inside
   the context's exponent range, so no other trapped condition can arise),
   in which case `apd` leaves the destination as `NaN` and the code wraps
   the error as a `CodeNumericValueOutOfRangeError` whose message cites the
   exclusive bound `1` when `precision - scale == 0` and
   `10^(precision-scale)` otherwise. -/
def LimitDecimalWidth (d : ApdDecimal) (precision scale : Int) :
    ApdDecimal × Option PgError :=
  if d.form ≠ .finite ∨ precision ≤ 0 then (d, none)
  else if scale < minInt32 + 1 ∨ scale > maxInt32 then (d, some errScaleOutOfRange)
  else if scale > precision then
    (d, some { code := .invalidParameterValue,
               message := "scale (" ++ toString scale ++
                 ") must be between 0 and precision (" ++ toString precision ++ ")" })
  else
    let q := quantizedCoeff d scale
    if (numDigits q : Int) > precision then
      ({ form := .naN, negative := false, coeff := 0, exponent := 0 },
       some { code := .numericValueOutOfRange,
              message := "value with precision " ++ toString precision ++
                ", scale " ++ toString scale ++
                " must round to an absolute value less than " ++
                (if precision - scale = 0 then "1"
                 else "10^" ++ toString (precision - scale)) })
    else
      ({ form := .finite, negative := d.negative, coeff := q, exponent := -scale },
       none)

/-! ## Result-column compatibility (`ResultColumns.TypesEqual`) -/

/-- Modelled from the spec: the `sqlbase.ResultColumn` struct itself is not
among the supplied source files; per the spec it is
`{name, value_type, table_id (optional), hidden}`, and `TypesEqual` ignores
everything but `Typ`. -/
structure ResultColumn where
  name : String := ""
  Typ : TypesT
  hidden : Bool := false
  deriving DecidableEq, Repr

/-- Type `sqlbase.ResultColumns`: an ordered sequence of result columns. -/
abbrev ResultColumns := List ResultColumn

/-- Modelled from the spec, constrained by the repository test
`TestResultColumnsTypesEqual` (`src/pkg/sql/sqlbase/result_columns_test.go`;
the implementation itself is not among the supplied source files): false on
a length mismatch, otherwise a positional pairwise check in which a `Null`
type in the OTHER (right-hand) column is a wildcard.  The test rows force
the wildcard to be one-sided: `r=[Null], o=[Int]` must compare unequal
(lines 39-43) while `r=[Int], o=[Null]` compares equal (lines 44-48), which
rules out a wildcard on the left-hand side. -/
def TypesEqual (r other : ResultColumns) : Bool :=
  if r.length ≠ other.length then false
  else (r.zip other).all fun co =>
    if co.2.Typ = .TypeNull then true else decide (co.1.Typ = co.2.Typ)

/-- Shorthand for a result column carrying only a type, as in the test's
`ResultColumns{{Typ: types.TypeInt}}` literals. -/
def col (t : TypesT) : ResultColumn := { Typ := t }

/-- The seven rows of `TestResultColumnsTypesEqual`, checked against the
embedded `TypesEqual` (this pins the model to the repository's test). -/
theorem typesEqual_matches_repo_test :
    TypesEqual [col .TypeInt] [col .TypeInt] = true ∧
    TypesEqual [col .TypeInt] [col .TypeString] = false ∧
    TypesEqual [col .TypeNull] [col .TypeInt] = false ∧
    TypesEqual [col .TypeInt] [col .TypeNull] = true ∧
    TypesEqual [col .TypeNull] [col .TypeNull] = true ∧
    TypesEqual [col .TypeInt, col .TypeInt] [col .TypeInt] = false ∧
    TypesEqual [] [col .TypeNull] = false := by
  decide

/-! ## The `sqlfmt` CLI wrapper (`pkg/cmd/sqlfmt/main.go`) -/

/-- Enumeration `tree.PrettyAlignMode`. -/
inductive PrettyAlignMode
  | noAlign
  | alignOnly
  | alignAndDeindent
  deriving DecidableEq, Repr

/-- The fields of `tree.PrettyCfg` that `runSQLFmt` sets (the pretty-printer
itself is external to this core). -/
structure PrettyCfg where
  useTabs : Bool
  lineWidth : Int
  tabWidth : Int
  simplify : Bool
  align : PrettyAlignMode
  jsonFmt : Bool
  deriving DecidableEq, Repr

/-- Struct `SqlfmtCtx` of `main.go`. -/
structure SqlfmtCtx where
  len : Int
  useSpaces : Bool
  tabWidth : Int
  noSimplify : Bool
  align : Bool
  formatPath : String
  deriving DecidableEq, Repr

/-- The external collaborators of `runSQLFmt`, abstracted: reading standard
input (`io.ReadAll(os.Stdin)`), parsing (`parser.Parse`), the default pretty
configuration (`tree.DefaultPrettyCfg`) and the pretty-printer
(`cfg.Pretty`), over an arbitrary statement type. -/
structure SqlfmtEnv (Stmt : Type) where
  readStdin : Except String String
  parse : String → Except String (List Stmt)
  defaultPrettyCfg : PrettyCfg
  pretty : PrettyCfg → Stmt → String

/-- Function `runSQLFmt`: validates the line width and tab width, then reads standard
input, parses it, configures the pretty-printer and renders every statement
(each followed by `";"` when there are several, then a newline). -/
def runSQLFmt {Stmt : Type} (env : SqlfmtEnv Stmt) (sqlfmtCtx : SqlfmtCtx) :
    Except String String :=
  if sqlfmtCtx.len < 1 then
    .error ("line length must be > 0: " ++ toString sqlfmtCtx.len)
  else if sqlfmtCtx.tabWidth < 1 then
    .error ("tab width must be > 0: " ++ toString sqlfmtCtx.tabWidth)
  else do
    let inp ← env.readStdin
    let sl ← env.parse inp
    let cfg : PrettyCfg :=
      { env.defaultPrettyCfg with
        useTabs := !sqlfmtCtx.useSpaces
        lineWidth := sqlfmtCtx.len
        tabWidth := sqlfmtCtx.tabWidth
        simplify := !sqlfmtCtx.noSimplify
        align := if sqlfmtCtx.align then .alignAndDeindent else .noAlign
        jsonFmt := true }
    .ok (String.join (sl.map fun s =>
      env.pretty cfg s ++ (if sl.length > 1 then ";" else "") ++ "\n"))

/-! ## Claim theorems -/

/-- C1 counterexample: contrary to the claim, the result-column
compatibility check is not symmetric in the `Null` wildcard —
`types_equal([Null], [Int])` is `false` (exactly the assertion of the
repository test row at `result_columns_test.go:39-43`), while the claim
requires it to be `true`. -/
theorem typesEqual_null_int_is_false :
    TypesEqual [col .TypeNull] [col .TypeInt] = false := by
  decide

/-- C1 amended: the `Null` wildcard in the result-column compatibility check
is one-sided — a `Null` type in the right-hand column matches any left-hand
type, so `types_equal([t], [Null]) = true` for every value type `t`, but a
`Null` in the left-hand column matches only a `Null` on the right, so
`types_equal([Null], [t])` is `true` exactly when `t` is `Null`; in
particular `types_equal([Int], [Null]) = true` while
`types_equal([Null], [Int]) = false`. -/
theorem typesEqual_wildcard_one_sided :
    (∀ t : TypesT, TypesEqual [col t] [col .TypeNull] = true) ∧
    (∀ t : TypesT, TypesEqual [col .TypeNull] [col t] = decide (t = .TypeNull)) ∧
    TypesEqual [col .TypeInt] [col .TypeNull] = true := by
  refine ⟨fun t => ?_, fun t => ?_, by decide⟩
  · simp [TypesEqual, col]
  · by_cases h : t = .TypeNull
    · subst h; simp [TypesEqual, col]
    · simp [TypesEqual, col, h, eq_comm]

/-- C2: for each of the fourteen primitive value types,
`DatumTypeToColumnType` succeeds and `CastTargetToDatumType` maps its result
back to exactly the original value type. -/
theorem datumType_columnType_roundtrip :
    roundTripsTo .TypeBool = true ∧ roundTripsTo .TypeInt = true ∧
    roundTripsTo .TypeFloat = true ∧ roundTripsTo .TypeDecimal = true ∧
    roundTripsTo .TypeString = true ∧ roundTripsTo .TypeBytes = true ∧
    roundTripsTo .TypeDate = true ∧ roundTripsTo .TypeTimestamp = true ∧
    roundTripsTo .TypeTimestampTZ = true ∧ roundTripsTo .TypeInterval = true ∧
    roundTripsTo .TypeJSON = true ∧ roundTripsTo .TypeUUID = true ∧
    roundTripsTo .TypeINet = true ∧ roundTripsTo .TypeName = true := by
  decide

/-- C4 counterexample: contrary to the claim, `CastTargetToDatumType`
dispatches `OidColType` by pointer identity, not by the `Name` value — a
freshly allocated `OidColType` whose `Name` is `"OID"` (structurally equal
to, but not identical with, the cached singleton `oidColTypeOid`) reaches
the programming-error (panic) branch of `oidColTypeToType`. -/
theorem castTarget_fresh_oid_panics :
    (OidColTypePtr.fresh "OID").name = "OID" ∧
    OidColTypePtr.fresh "OID" ≠ OidColTypePtr.oidColTypeOid ∧
    CastTargetToDatumType (.OidColType (.fresh "OID")) = none := by
  exact ⟨rfl, by decide, rfl⟩

/-- C4 amended: `CastTargetToDatumType` on `OidColType` is total by identity,
not by value: each of the six cached singleton instances maps to its
corresponding OID value type, but every freshly constructed `OidColType` —
whatever its `Name`, including the six OID names — reaches the
programming-error (panic) branch. -/
theorem castTarget_oid_identity_dispatch :
    CastTargetToDatumType (.OidColType .oidColTypeOid) = some .TypeOid ∧
    CastTargetToDatumType (.OidColType .oidColTypeRegClass) = some .TypeRegClass ∧
    CastTargetToDatumType (.OidColType .oidColTypeRegNamespace) = some .TypeRegNamespace ∧
    CastTargetToDatumType (.OidColType .oidColTypeRegProc) = some .TypeRegProc ∧
    CastTargetToDatumType (.OidColType .oidColTypeRegProcedure) = some .TypeRegProcedure ∧
    CastTargetToDatumType (.OidColType .oidColTypeRegType) = some .TypeRegType ∧
    (∀ s : String, CastTargetToDatumType (.OidColType (.fresh s)) = none) := by
  exact ⟨rfl, rfl, rfl, rfl, rfl, rfl, fun s => rfl⟩

/-- C7: `arrayOf` fails with a `FeatureNotSupported` error exactly when the
element type is not array-eligible; eligibility excludes every `Array` and
every `Vector` element whatever their parameters; on success the constructed
array's name is the element's rendered form with `"[]"` appended, and
`array_of(Int, _)` succeeds and renders as `"INT[]"`. -/
theorem arrayOf_eligibility_and_name :
    (∀ (name : String) (pt : ColumnType) (be bounds : Exprs),
       ∃ e, arrayOf (.ArrayColType name pt be) bounds = .error e ∧
            e.code = .featureNotSupported) ∧
    (∀ (name : String) (pt : ColumnType) (bounds : Exprs),
       ∃ e, arrayOf (.VectorColType name pt) bounds = .error e ∧
            e.code = .featureNotSupported) ∧
    (∀ (elem : ColumnType) (bounds : Exprs) (e : PgError),
       arrayOf elem bounds = .error e →
         canBeInArrayColType elem = false ∧ e.code = .featureNotSupported) ∧
    (∀ (elem : ColumnType) (bounds : Exprs),
       canBeInArrayColType elem = true →
         arrayOf elem bounds = .ok (.ArrayColType (elem.Format ++ "[]") elem bounds)) ∧
    arrayOf intColTypeInt [] = .ok (.ArrayColType "INT[]" intColTypeInt []) ∧
    (ColumnType.ArrayColType "INT[]" intColTypeInt []).Format = "INT[]" := by
  refine ⟨fun name pt be bounds => ⟨_, rfl, rfl⟩,
          fun name pt bounds => ⟨_, rfl, rfl⟩,
          fun elem bounds e h => ?_,
          fun elem bounds hc => ?_, rfl, by decide⟩
  · unfold arrayOf at h
    by_cases hc : canBeInArrayColType elem = false
    · rw [if_pos hc] at h
      refine ⟨hc, ?_⟩
      cases h
      rfl
    · rw [if_neg hc] at h
      exact absurd h (by simp)
  · unfold arrayOf
    rw [if_neg (by simp [hc])]

/-- C7 witness: the eligibility implications of
`arrayOf_eligibility_and_name` instantiated concretely — `INT` is eligible
and produces the `"INT[]"`-named array, and `arrayOf` on the `INT2VECTOR`
vector type produces a `FeatureNotSupported` error. -/
theorem arrayOf_eligibility_and_name_witness :
    arrayOf intColTypeInt [] =
      .ok (.ArrayColType (intColTypeInt.Format ++ "[]") intColTypeInt []) ∧
    (canBeInArrayColType (.VectorColType "INT2VECTOR" intColTypeInt) = false ∧
     PgError.code { code := .featureNotSupported,
                    message := "arrays of INT2VECTOR not allowed" } =
       .featureNotSupported) :=
  ⟨arrayOf_eligibility_and_name.2.2.2.1 intColTypeInt [] (by decide),
   arrayOf_eligibility_and_name.2.2.1 (.VectorColType "INT2VECTOR" intColTypeInt) []
     { code := .featureNotSupported,
       message := "arrays of INT2VECTOR not allowed" } rfl⟩

/-- C8 counterexample: contrary to the claim's `FloatColType` clause,
`Format` emits the precision whenever `Prec > 0` even when it was not
explicitly specified — `NewFloatColType(10, false)` produces a `FloatColType`
with `PrecSpecified = false` that nevertheless renders as `"FLOAT(10)"`. -/
theorem floatColType_format_ignores_precSpecified :
    NewFloatColType 10 false = .FloatColType "FLOAT" 10 64 false ∧
    (NewFloatColType 10 false).precSpecified = false ∧
    (NewFloatColType 10 false).Format = "FLOAT(10)" := by
  exact ⟨by decide, by decide, by decide⟩

/-- C8 amended: `IntColType.Format` emits the width iff `Width > 0` and
`ImplicitWidth` is false (`{BIT, 5, explicit}` renders as `"BIT(5)"`,
`{SMALLINT, 16, implicit}` as `"SMALLINT"`), while `FloatColType.Format`
emits the precision iff `Prec > 0`, with `PrecSpecified` not consulted. -/
theorem format_width_precision :
    (∀ (name : String) (w : Int) (iw : Bool),
       (ColumnType.IntColType name w iw).Format =
         if w > 0 ∧ iw = false then name ++ "(" ++ toString w ++ ")" else name) ∧
    (ColumnType.IntColType "BIT" 5 false).Format = "BIT(5)" ∧
    (ColumnType.IntColType "SMALLINT" 16 true).Format = "SMALLINT" ∧
    (∀ (name : String) (p w : Int) (ps : Bool),
       (ColumnType.FloatColType name p w ps).Format =
         if p > 0 then name ++ "(" ++ toString p ++ ")" else name) := by
  refine ⟨fun name w iw => ?_, by decide, by decide, fun name p w ps => ?_⟩
  · simp only [ColumnType.Format]
    split
    · simp [String.append_assoc]
    · simp
  · simp only [ColumnType.Format]
    split
    · simp [String.append_assoc]
    · simp

/-- C9: `LimitDecimalWidth` is a no-op — success and an unchanged decimal —
whenever the value is non-finite or `precision <= 0`, for every scale
whatsoever (the no-op check precedes all parameter validation). -/
theorem limitDecimalWidth_noop (d : ApdDecimal) (precision scale : Int)
    (h : d.form ≠ .finite ∨ precision ≤ 0) :
    LimitDecimalWidth d precision scale = (d, none) := by
  simp only [LimitDecimalWidth, if_pos h]

/-- C9 witness: a `NaN` decimal with a scale that is both outside the
`int32` range and greater than the precision, and a finite decimal with
`precision = 0`, both pass through unchanged. -/
theorem limitDecimalWidth_noop_witness :
    ((ApdDecimal.mk .naN false 0 0).form ≠ .finite ∨ (5 : Int) ≤ 0) ∧
    LimitDecimalWidth ⟨.naN, false, 0, 0⟩ 5 2147483655 = (⟨.naN, false, 0, 0⟩, none) ∧
    LimitDecimalWidth ⟨.finite, false, 7, 0⟩ 0 2147483655 = (⟨.finite, false, 7, 0⟩, none) :=
  ⟨Or.inl (by decide),
   limitDecimalWidth_noop ⟨.naN, false, 0, 0⟩ 5 2147483655 (Or.inl (by decide)),
   limitDecimalWidth_noop ⟨.finite, false, 7, 0⟩ 0 2147483655 (Or.inr (by decide))⟩

/-- C5 counterexample: contrary to the claim, the scale-out-of-range failure
is not of a kind distinct from `NumericValueOutOfRange` — the source builds
`errScaleOutOfRange` with `pgerror.CodeNumericValueOutOfRangeError`
(`col_types.go:115`), as this concrete run shows. -/
theorem errScaleOutOfRange_code_is_numeric :
    (LimitDecimalWidth ⟨.finite, false, 5, 0⟩ 1 2147483648).2 =
      some errScaleOutOfRange ∧
    errScaleOutOfRange.code = .numericValueOutOfRange := by
  exact ⟨rfl, rfl⟩

/-- C5 amended: for every finite decimal and `precision > 0`, a scale outside
`[MinInt32+1, MaxInt32]` makes `LimitDecimalWidth` fail with the dedicated
`errScaleOutOfRange` error (`"scale out of range"`) — whose error code is
`CodeNumericValueOutOfRangeError`, the same kind as the numeric-out-of-range
failure, not a distinct kind — and this check is made before the
scale-vs-precision check. -/
theorem limitDecimalWidth_scale_range_check (d : ApdDecimal) (precision scale : Int)
    (hf : d.form = .finite) (hp : 0 < precision)
    (hs : scale < minInt32 + 1 ∨ scale > maxInt32) :
    LimitDecimalWidth d precision scale = (d, some errScaleOutOfRange) ∧
    errScaleOutOfRange.code = .numericValueOutOfRange := by
  refine ⟨?_, rfl⟩
  have h1 : ¬(d.form ≠ .finite ∨ precision ≤ 0) := by
    push_neg
    exact ⟨by simp [hf], by omega⟩
  simp only [LimitDecimalWidth, if_neg h1, if_pos hs]

/-- C5 witness: a finite decimal with `precision = 1` and
`scale = 2147483648 > MaxInt32`; the scale also exceeds the precision, yet
the result is `errScaleOutOfRange`, showing the range check runs first. -/
theorem limitDecimalWidth_scale_range_check_witness :
    (2147483648 : Int) > maxInt32 ∧ (2147483648 : Int) > 1 ∧
    LimitDecimalWidth ⟨.finite, false, 5, 0⟩ 1 2147483648 =
      (⟨.finite, false, 5, 0⟩, some errScaleOutOfRange) ∧
    errScaleOutOfRange.code = .numericValueOutOfRange :=
  ⟨by decide, by decide,
   (limitDecimalWidth_scale_range_check ⟨.finite, false, 5, 0⟩ 1 2147483648 rfl
     (by decide) (Or.inr (by decide))).1,
   (limitDecimalWidth_scale_range_check ⟨.finite, false, 5, 0⟩ 1 2147483648 rfl
     (by decide) (Or.inr (by decide))).2⟩

/-- C6: for every finite decimal, `precision > 0` and in-range
`scale > precision`, `LimitDecimalWidth` fails with an
`InvalidParameterValue` error and returns the decimal unchanged. -/
theorem limitDecimalWidth_scale_gt_precision (d : ApdDecimal) (precision scale : Int)
    (hf : d.form = .finite) (hp : 0 < precision)
    (hs1 : minInt32 + 1 ≤ scale) (hs2 : scale ≤ maxInt32)
    (hgt : scale > precision) :
    LimitDecimalWidth d precision scale =
      (d, some { code := .invalidParameterValue,
                 message := "scale (" ++ toString scale ++
                   ") must be between 0 and precision (" ++
                   toString precision ++ ")" }) := by
  have h1 : ¬(d.form ≠ .finite ∨ precision ≤ 0) := by
    push_neg
    exact ⟨by simp [hf], by omega⟩
  have h2 : ¬(scale < minInt32 + 1 ∨ scale > maxInt32) := by
    push_neg
    exact ⟨by omega, by omega⟩
  simp only [LimitDecimalWidth, if_neg h1, if_neg h2, if_pos hgt]

/-- C6 witness: the spec's own example — `precision = 5`, `scale = 10` on
the finite decimal `12.3` — fails with the `InvalidParameterValue` message
and leaves the decimal unchanged. -/
theorem limitDecimalWidth_scale_gt_precision_witness :
    (10 : Int) > 5 ∧
    LimitDecimalWidth ⟨.finite, false, 123, -1⟩ 5 10 =
      (⟨.finite, false, 123, -1⟩,
       some { code := .invalidParameterValue,
              message := "scale (10) must be between 0 and precision (5)" }) := by
  refine ⟨by decide, ?_⟩
  have h := limitDecimalWidth_scale_gt_precision ⟨.finite, false, 123, -1⟩ 5 10 rfl
    (by decide) (by decide) (by decide) (by decide)
  rw [h]
  rfl

/-- C3: for every finite decimal and parameters with `0 < precision`,
`0 ≤ scale ≤ precision` and `scale` within the engine range, if quantizing
to `scale` fractional digits yields a coefficient with more digits than
`precision` allows, `LimitDecimalWidth` fails with a
`NumericValueOutOfRange` error whose message cites the exclusive bound `"1"`
when `precision - scale == 0` and `"10^(precision-scale)"` otherwise. -/
theorem limitDecimalWidth_overflow (d : ApdDecimal) (precision scale : Int)
    (hf : d.form = .finite) (hp : 0 < precision) (hs0 : 0 ≤ scale)
    (hsr : scale ≤ maxInt32) (hsp : scale ≤ precision)
    (hq : (numDigits (quantizedCoeff d scale) : Int) > precision) :
    (LimitDecimalWidth d precision scale).2 =
      some { code := .numericValueOutOfRange,
             message := "value with precision " ++ toString precision ++
               ", scale " ++ toString scale ++
               " must round to an absolute value less than " ++
               (if precision - scale = 0 then "1"
                else "10^" ++ toString (precision - scale)) } := by
  have h1 : ¬(d.form ≠ .finite ∨ precision ≤ 0) := by
    push_neg
    exact ⟨by simp [hf], by omega⟩
  have h2 : ¬(scale < minInt32 + 1 ∨ scale > maxInt32) := by
    push_neg
    refine ⟨by simp only [minInt32]; omega, by omega⟩
  have h3 : ¬(scale > precision) := by omega
  simp only [LimitDecimalWidth, if_neg h1, if_neg h2, if_neg h3, if_pos hq]

/-- C3 witness: the spec's own example — the value `12345` with
`precision = 3`, `scale = 0` — overflows and the error message cites the
bound `10^3`. -/
theorem limitDecimalWidth_overflow_witness :
    (numDigits (quantizedCoeff ⟨.finite, false, 12345, 0⟩ 0) : Int) > 3 ∧
    (LimitDecimalWidth ⟨.finite, false, 12345, 0⟩ 3 0).2 =
      some { code := .numericValueOutOfRange,
             message := "value with precision 3, scale 0 must round to an absolute value less than 10^3" } := by
  refine ⟨by decide, ?_⟩
  have h := limitDecimalWidth_overflow ⟨.finite, false, 12345, 0⟩ 3 0 rfl
    (by decide) (by decide) (by decide) (by decide) (by decide)
  rw [h]
  rfl

/-- C10: with an invalid line width (`< 1`) or tab width (`< 1`),
`runSQLFmt` returns the corresponding validation error, and the result is
the same for every environment — i.e. independent of standard input and of
the parser, so no input is read and no parse is attempted. -/
theorem runSQLFmt_width_validation {Stmt : Type} (env envAlt : SqlfmtEnv Stmt)
    (sqlfmtCtx : SqlfmtCtx) (h : sqlfmtCtx.len < 1 ∨ sqlfmtCtx.tabWidth < 1) :
    runSQLFmt env sqlfmtCtx =
      .error (if sqlfmtCtx.len < 1
              then "line length must be > 0: " ++ toString sqlfmtCtx.len
              else "tab width must be > 0: " ++ toString sqlfmtCtx.tabWidth) ∧
    runSQLFmt env sqlfmtCtx = runSQLFmt envAlt sqlfmtCtx := by
  by_cases hl : sqlfmtCtx.len < 1
  · constructor <;> simp only [runSQLFmt, if_pos hl]
  · have ht : sqlfmtCtx.tabWidth < 1 := h.resolve_left hl
    constructor <;> simp only [runSQLFmt, if_neg hl, if_pos ht]

/-- An environment whose parser succeeds, used to witness C10. -/
def sqlfmtEnvOk : SqlfmtEnv Unit :=
  { readStdin := .ok "SELECT 1"
    parse := fun _ => .ok [()]
    defaultPrettyCfg :=
      { useTabs := false, lineWidth := 60, tabWidth := 4,
        simplify := true, align := .noAlign, jsonFmt := false }
    pretty := fun _ _ => "SELECT 1" }

/-- An environment whose stdin and parser both fail, used to witness C10. -/
def sqlfmtEnvBad : SqlfmtEnv Unit :=
  { readStdin := .error "stdin unavailable"
    parse := fun _ => .error "syntax error"
    defaultPrettyCfg :=
      { useTabs := true, lineWidth := 1, tabWidth := 1,
        simplify := false, align := .alignAndDeindent, jsonFmt := true }
    pretty := fun _ _ => "" }

/-- C10 witness: a configuration with line width `0` is rejected with the
line-length validation error, identically under an environment that would
parse successfully and one that would fail to read or parse. -/
theorem runSQLFmt_width_validation_witness :
    ((0 : Int) < 1 ∨ (4 : Int) < 1) ∧
    runSQLFmt sqlfmtEnvOk ⟨0, true, 4, false, true, ""⟩ =
      .error "line length must be > 0: 0" ∧
    runSQLFmt sqlfmtEnvOk ⟨0, true, 4, false, true, ""⟩ =
      runSQLFmt sqlfmtEnvBad ⟨0, true, 4, false, true, ""⟩ := by
  have h := runSQLFmt_width_validation sqlfmtEnvOk sqlfmtEnvBad
    ⟨0, true, 4, false, true, ""⟩ (Or.inl (by decide))
  refine ⟨Or.inl (by decide), ?_, h.2⟩
  rw [h.1]
  rfl
